import Mathlib

/-!
# mystrom: discovery packet decoding and HTTP transport

A shallow embedding of the Go package `mystrom` (`discover.go`, `client.go`,
`switch.go`).  Go values are represented as follows.

* `byte` is `Fin 256`; a `[]byte` is a `List Byte` (the nil slice is `[]`).
* A Go `error` is a `GoError`; a nil error is `none`.
* A Go function returning `(T, error)` returns a pair `T × Option GoError`.
* Interfaces that may be nil (`net.Addr`, `io.ReadCloser`) are `Option`s.
* Behaviour of the Go standard library that the package calls is either
  written out where it is small (`errors.Is`, `http.Header.Set`,
  `PacketConn.ReadFrom` on a datagram socket) or taken as a field of `Std`.
-/

namespace Mystrom

/-! ## Go runtime values -/

/-- Go `byte`. -/
abbrev Byte := Fin 256

/-- Go error values.  `new` is a value made by `errors.New`, `errorf` one made
by `fmt.Errorf` with no `%w` verb, `wrapf` one made by `fmt.Errorf` with one
`%w` verb whose operand is `inner`.  `text` is the formatted message. -/
inductive GoError where
  | new (text : String)
  | errorf (text : String)
  | wrapf (text : String) (inner : GoError)
deriving DecidableEq, Repr

namespace GoError

/-- Method `Error()` of a Go error: its message. -/
def Error : GoError → String
  | new t => t
  | errorf t => t
  | wrapf t _ => t

/-- Go `errors.Unwrap`. -/
def Unwrap : GoError → Option GoError
  | wrapf _ inner => some inner
  | _ => none

/-- Go `errors.Is`: `target` is found somewhere in the wrap chain of `err`. -/
def Is : GoError → GoError → Bool
  | new t, target => new t == target
  | errorf t, target => errorf t == target
  | wrapf t inner, target => wrapf t inner == target || Is inner target

end GoError

/-- A `net.Addr` value, by its textual form. -/
abbrev Addr := String

/-! ## discover.go -/

/-- Go `type DeviceType byte`. -/
abbrev DeviceType := Byte

def DeviceTypeBulb : DeviceType := 102
def DeviceTypeButtonPlus1stGeneration : DeviceType := 103
def DeviceTypeButtonSmall : DeviceType := 104
def DeviceTypeLEDStrip : DeviceType := 105
def DeviceTypeSwitchCH : DeviceType := 106
def DeviceTypeSwitchEU : DeviceType := 107
def DeviceTypeMotionSensor : DeviceType := 110
def DeviceTypeGateway : DeviceType := 112
def DeviceTypeSTECCO : DeviceType := 113
def DeviceTypeButtonPlus2ndGeneration : DeviceType := 118
def DeviceTypeSwitchZero : DeviceType := 120

/-- Method `String` of `DeviceType`: the `switch` over the eleven constants,
with `fmt.Sprintf("%d", d)` in the default case. -/
def DeviceType.String (d : DeviceType) : String :=
  if d = DeviceTypeBulb then "Bulb"
  else if d = DeviceTypeButtonPlus1stGeneration then "Button plus 1st generation"
  else if d = DeviceTypeButtonSmall then "Button small/simple"
  else if d = DeviceTypeLEDStrip then "LED Strip"
  else if d = DeviceTypeSwitchCH then "Switch CH"
  else if d = DeviceTypeSwitchEU then "Switch EU"
  else if d = DeviceTypeMotionSensor then "Motion Sensor"
  else if d = DeviceTypeGateway then "Gateway"
  else if d = DeviceTypeSTECCO then "STECCO/CUBO"
  else if d = DeviceTypeButtonPlus2ndGeneration then "Button Plus 2nd generation"
  else if d = DeviceTypeSwitchZero then "Switch Zero"
  else Nat.repr d.val

/-- Go `type Device struct`.  The field `Type` is spelled `Type_`. -/
structure Device where
  Address : Option Addr
  MAC : List Byte
  Type_ : DeviceType
  Cloud : Bool
  Registered : Bool
  MeshChild : Bool
deriving DecidableEq, Repr

/-- The zero value `Device{}`. -/
def Device.zero : Device :=
  { Address := none, MAC := [], Type_ := 0, Cloud := false, Registered := false,
    MeshChild := false }

/-- Go `defaultString`. -/
def defaultString (s def_ : String) : String :=
  if s ≠ "" then s else def_

/-- Go `parseDevicePayload`.  The named result `d` starts as the zero value and
is returned as such on the error path. -/
def parseDevicePayload (buf : List Byte) (addr : Option Addr) : Device × Option GoError :=
  if h : buf.length < 8 then
    (Device.zero, some (GoError.errorf ("payload too small: " ++ Nat.repr buf.length)))
  else
    have h6 : 6 < buf.length := by omega
    have h7 : 7 < buf.length := by omega
    let status : Byte := buf[7]
    ({ Address := addr
       MAC := buf.take 6
       Type_ := buf[6]
       MeshChild := decide (status.val &&& (1 <<< 0) ≠ 0)
       Registered := decide (status.val &&& (1 <<< 1) ≠ 0)
       Cloud := decide (status.val &&& (1 <<< 2) ≠ 0) }, none)

/-- A listening datagram socket (`net.PacketConn`), by what its next blocking
receive yields: the payload of the datagram that arrives together with the
address of its sender, or the error of the receive (for instance because the
context was cancelled). -/
structure PacketConn where
  incoming : Except GoError (List Byte × Option Addr)

/-- Method `ReadFrom` of a datagram `net.PacketConn`: one datagram is copied
into the front of `buf`, as many bytes as fit, the rest of `buf` is left as it
was and the rest of the datagram is dropped.  Returns the buffer after the
call, the number of bytes copied, the sender and the error. -/
def PacketConn.ReadFrom (pc : PacketConn) (buf : List Byte) :
    List Byte × Nat × Option Addr × Option GoError :=
  match pc.incoming with
  | .error err => (buf, 0, none, some err)
  | .ok (dgram, addr) =>
    (dgram.take buf.length ++ buf.drop dgram.length, min dgram.length buf.length, addr, none)

/-- Go `net.ListenConfig`, by the outcome of `ListenPacket network address`. -/
structure ListenConfig where
  ListenPacket : String → String → Except GoError PacketConn

/-- Go `type Discover struct`. -/
structure Discover where
  Address : String
  Network : String
  ListenConfig : ListenConfig

/-- Method `Device` of `Discover`.  The count returned by `ReadFrom` is
discarded, as in the source (`_, addr, err := pc.ReadFrom(buf)`). -/
def Discover.Device (d : Discover) : Mystrom.Device × Option GoError :=
  let address := defaultString d.Address ":7979"
  let network := defaultString d.Network "udp"
  match d.ListenConfig.ListenPacket network address with
  | .error err =>
    (Device.zero, some (GoError.wrapf ("listen packet error for address " ++ address
      ++ ", network " ++ network ++ ": " ++ err.Error) err))
  | .ok pc =>
    let buf : List Byte := List.replicate 8 0
    match pc.ReadFrom buf with
    | (_, _, _, some err) =>
      (Device.zero, some (GoError.wrapf ("error reading packet: " ++ err.Error) err))
    | (buf, _, addr, none) => parseDevicePayload buf addr

/-! ## Standard-library values used by client.go and switch.go -/

/-- Go `url.URL`, by the fields the package reads or writes. -/
structure URL where
  Scheme : String
  Host : String
  Path : String
  RawQuery : String
deriving DecidableEq, Repr

/-- Go `url.Values` (`map[string][]string`), as an association list. -/
abbrev Values := List (String × List String)

/-- Go `http.Header` (`map[string][]string`), as an association list with at
most one entry per key. -/
abbrev Header := List (String × List String)

/-- Method `Set` of `http.Header`: the entry of `key` becomes the single value
`value`.  All keys the package sets are already in canonical form. -/
def Header.Set (h : Header) (key value : String) : Header :=
  (key, [value]) :: h.filter (fun kv => kv.1 != key)

/-- The map lookup `h[key]` on an `http.Header`: `none` when the key is absent. -/
def Header.lookup (h : Header) (key : String) : Option (List String) :=
  List.lookup key h

/-- Method `Get` of `http.Header`: the first value of `key`, or `""`. -/
def Header.Get (h : Header) (key : String) : String :=
  match h.lookup key with
  | some (v :: _) => v
  | _ => ""

/-- Go `*http.Request`, by the fields `http.NewRequestWithContext` fills in.
`Body` is `none` when the body reader given was nil. -/
structure Request where
  Method : String
  URL : URL
  Header : Header
  Body : Option String
deriving DecidableEq, Repr

/-- A response body stream (`io.ReadCloser`): the bytes it yields and the
error, other than `io.EOF`, that ends it (`none` when it ends with `io.EOF`). -/
structure Body where
  data : String
  readErr : Option GoError
deriving DecidableEq, Repr

/-- Go `io.ReadAll`. -/
def ReadAll (b : Body) : String × Option GoError :=
  (b.data, b.readErr)

/-- Go `*http.Response`, by the fields the package reads. -/
structure Response where
  StatusCode : Int
  Header : Header
  Body : Option Body
deriving DecidableEq, Repr

/-- Go `*http.Client`, by the outcome of its method `Do`: a response, or the
transport error. -/
structure HTTPClient where
  Do : Request → Except GoError Response

/-- A Go value handed over as request body (`interface{}`), by what
`json.NewEncoder(buf).Encode(body)` does with it: the text written, or the
error. -/
structure BodyValue where
  json : Except GoError String

/-- How `encoding/json` fills a target of Go type `V`: given a stream that
yields at least one byte and the target's value before the call, the value
after the call and the error. -/
structure JSONTarget (V : Type) where
  decode : Body → V → V × Option GoError

/-- Go `io.EOF`. -/
def EOF : GoError := GoError.new "EOF"

/-- The call `json.NewDecoder(body).Decode(&v)`.  On a stream that yields no
byte the decoder returns the stream's error, which is `io.EOF` when the
stream just ends, and leaves the target alone. -/
def jsonDecode {V : Type} (target : JSONTarget V) (body : Body) (v : V) : V × Option GoError :=
  if body.data = "" then
    match body.readErr with
    | some err => (v, some err)
    | none => (v, some EOF)
  else target.decode body v

/-- Functions of the Go standard library that the package calls and that are
not written out here. -/
structure Std where
  /-- Method `ResolveReference` of `*url.URL`: receiver, then reference. -/
  ResolveReference : URL → URL → URL
  /-- Method `Encode` of `url.Values`. -/
  Encode : Values → String
  /-- The URL of the request that `http.NewRequestWithContext` makes from a
  method and the string form `u.String()` of the URL `u`, or the error it
  returns for an invalid method or URL. -/
  NewRequestURL : String → URL → Except GoError URL
  /-- Go `http.StatusText`. -/
  StatusText : Int → String
  /-- Go `bytes.TrimSpace`. -/
  TrimSpace : String → String
  /-- The conversion `int(d.Seconds())` of a `time.Duration` in nanoseconds. -/
  Seconds : Int → Int

/-- Go `http.MethodGet`. -/
def MethodGet : String := "GET"

/-- Go `http.MethodPost`. -/
def MethodPost : String := "POST"

/-! ## client.go -/

/-- Package variable `ErrStatus`. -/
def ErrStatus : GoError := GoError.new "status code error"

/-- Go `type Client struct`.  `httpClient` is `none` for a nil pointer. -/
structure Client where
  userAgent : String
  apiKey : String
  httpClient : Option HTTPClient

/-- Go `type Option func(*Client)`: the change an option makes to the client. -/
abbrev ClientOption := Client → Client

/-- Go `WithAPIKey`. -/
def WithAPIKey (key : String) : ClientOption :=
  fun c => { c with apiKey := key }

/-- Go `WithUserAgent`. -/
def WithUserAgent (userAgent : String) : ClientOption :=
  fun c => { c with userAgent := userAgent }

/-- Go `WithHTTPClient`. -/
def WithHTTPClient (h : Option HTTPClient) : ClientOption :=
  fun c => { c with httpClient := h }

/-- Go `NewClient`; `defaultHTTP` stands for the fresh `&http.Client{}`. -/
def NewClient (defaultHTTP : HTTPClient) (opts : List ClientOption) : Client :=
  opts.foldl (fun client opt => opt client)
    { userAgent := "", apiKey := "", httpClient := some defaultHTTP }

/-- Method `newRequest` of `*Client`.  The outer `Option` is `none` when the
call panics, which it does when `baseURL` is nil. -/
def Client.newRequest (std : Std) (c : Client) (baseURL : Option URL) (method path : String)
    (params : Option Values) (body : Option BodyValue) : Option (Except GoError Request) :=
  match baseURL with
  | none => none
  | some baseURL =>
    let params : Values := match params with
      | none => []
      | some p => p
    let rel : URL := { Scheme := "", Host := "", Path := path, RawQuery := "" }
    let u := std.ResolveReference baseURL rel
    let u := { u with RawQuery := std.Encode params }
    let encoded : Except GoError (Option String) := match body with
      | none => Except.ok none
      | some b => match b.json with
        | Except.ok text => Except.ok (some text)
        | Except.error err => Except.error err
    match encoded with
    | Except.error err => some (Except.error err)
    | Except.ok buf =>
      match std.NewRequestURL method u with
      | Except.error err => some (Except.error err)
      | Except.ok url =>
        let req : Request :=
          { Method := if method = "" then MethodGet else method, URL := url, Header := [], Body := buf }
        let req : Request :=
          if body.isSome then { req with Header := req.Header.Set "Content-Type" "application/json" }
          else req
        let req : Request := { req with Header := req.Header.Set "Accept" "application/json" }
        let req : Request := { req with Header := req.Header.Set "User-Agent" c.userAgent }
        let req : Request :=
          if c.apiKey ≠ "" then { req with Header := req.Header.Set "Token" c.apiKey } else req
        some (Except.ok req)

/-- The message of the status error of `do`, without the body part:
`"%s: %d, %w"` applied to the reason phrase, the code and `ErrStatus`. -/
def statusMessage (std : Std) (code : Int) : String :=
  std.StatusText code ++ ": " ++ toString code ++ ", " ++ ErrStatus.Error

/-- Method `do` of `*Client`.  The outer `Option` is `none` when the call
panics, which it does when `httpClient` is nil.  The pair is the Go result
`(*http.Response, error)`. -/
def Client.do (std : Std) (c : Client) (req : Request) :
    Option (Option Response × Option GoError) :=
  match c.httpClient with
  | none => none
  | some h =>
    match h.Do req with
    | Except.error err => some (none, some err)
    | Except.ok resp =>
      if resp.StatusCode < 200 ∨ resp.StatusCode ≥ 300 then
        match resp.Body with
        | some b =>
          match ReadAll b with
          | (_, some err) =>
            some (none, some (GoError.wrapf ("error reading body: " ++ err.Error) err))
          | (body, none) =>
            let body := std.TrimSpace body
            some (some resp, some (GoError.wrapf
              (statusMessage std resp.StatusCode ++ " \x27" ++ body ++ "\x27") ErrStatus))
        | none =>
          some (some resp, some (GoError.wrapf (statusMessage std resp.StatusCode) ErrStatus))
      else some (some resp, none)

/-- Method `doJSON` of `*Client`.  Besides the Go result pair it returns the
value behind `v` after the call.  The outer `Option` is `none` when the call
panics. -/
def Client.doJSON {V : Type} (std : Std) (c : Client) (req : Request)
    (target : JSONTarget V) (v : V) : Option ((Option Response × Option GoError) × V) :=
  match c.do std req with
  | none => none
  | some (_, some err) => some ((none, some err), v)
  | some (none, none) => none
  | some (some resp, none) =>
    match resp.Body with
    | some b =>
      match jsonDecode target b v with
      | (v, some err) => some ((none, some err), v)
      | (v, none) => some ((some resp, none), v)
    | none => some ((some resp, none), v)

/-! ## switch.go -/

/-- Go `type Switch struct`. -/
structure Switch where
  baseURL : Option URL
  client : Client

/-- Method `Toggle` of `Switch`.  The outer `Option` of this and the other
methods is `none` when the call panics. -/
def Switch.Toggle (std : Std) (s : Switch) : Option (Option GoError) :=
  match s.client.newRequest std s.baseURL MethodGet "toggle" none none with
  | none => none
  | some (Except.error err) => some (some err)
  | some (Except.ok req) =>
    match s.client.do std req with
    | none => none
    | some (_, err) => some err

/-- Go `type RelaySwitchState string`. -/
abbrev RelaySwitchState := String

def RelaySwitchStateOn : RelaySwitchState := "1"
def RelaySwitchStateOff : RelaySwitchState := "0"

/-- Method `Relay` of `Switch`. -/
def Switch.Relay (std : Std) (s : Switch) (state : RelaySwitchState) : Option (Option GoError) :=
  match s.client.newRequest std s.baseURL MethodGet "relay" (some [("state", [state])]) none with
  | none => none
  | some (Except.error err) => some (some err)
  | some (Except.ok req) =>
    match s.client.do std req with
    | none => none
    | some (_, err) => some err

/-- Method `On` of `Switch`. -/
def Switch.On (std : Std) (s : Switch) : Option (Option GoError) :=
  s.Relay std RelaySwitchStateOn

/-- Method `Off` of `Switch`. -/
def Switch.Off (std : Std) (s : Switch) : Option (Option GoError) :=
  s.Relay std RelaySwitchStateOff

/-- Go `type SwitchReport struct`. -/
structure SwitchReport where
  Power : Float
  Relay : Bool

/-- Method `Report` of `Switch`: the report behind the returned pointer and
the error. -/
def Switch.Report (std : Std) (s : Switch) (target : JSONTarget SwitchReport) :
    Option (SwitchReport × Option GoError) :=
  let report : SwitchReport := { Power := 0, Relay := false }
  match s.client.newRequest std s.baseURL MethodGet "report" none none with
  | none => none
  | some (Except.error err) => some (report, some err)
  | some (Except.ok req) =>
    match s.client.doJSON std req target report with
    | none => none
    | some ((_, err), report) => some (report, err)

/-- Go `type SwitchTemperature struct`. -/
structure SwitchTemperature where
  Measured : Float
  Compensation : Float
  Compensated : Float

/-- Method `Temperature` of `Switch`: the value behind the returned pointer
and the error. -/
def Switch.Temperature (std : Std) (s : Switch) (target : JSONTarget SwitchTemperature) :
    Option (SwitchTemperature × Option GoError) :=
  let temp : SwitchTemperature := { Measured := 0, Compensation := 0, Compensated := 0 }
  match s.client.newRequest std s.baseURL MethodGet "api/v1/temperature" none none with
  | none => none
  | some (Except.error err) => some (temp, some err)
  | some (Except.ok req) =>
    match s.client.doJSON std req target temp with
    | none => none
    | some ((_, err), temp) => some (temp, err)

/-- Method `PowerCycle` of `Switch`; `wait` is a `time.Duration`. -/
def Switch.PowerCycle (std : Std) (s : Switch) (wait : Int) : Option (Option GoError) :=
  match s.client.newRequest std s.baseURL MethodGet "power_cycle"
      (some [("time", [toString (std.Seconds wait)])]) none with
  | none => none
  | some (Except.error err) => some (some err)
  | some (Except.ok req) =>
    match s.client.do std req with
    | none => none
    | some (_, err) => some err

/-- Go `type SwitchTimerMode string`. -/
abbrev SwitchTimerMode := String

def SwitchTimerModeOn : SwitchTimerMode := "on"
def SwitchTimerModeOff : SwitchTimerMode := "off"
def SwitchTimerModeToggle : SwitchTimerMode := "toggle"
def SwitchTimerModeNone : SwitchTimerMode := "none"

/-- Method `Timer` of `Switch`; `time` is a `time.Duration`. -/
def Switch.Timer (std : Std) (s : Switch) (mode : SwitchTimerMode) (time : Int) :
    Option (Option GoError) :=
  match s.client.newRequest std s.baseURL MethodPost "timer"
      (some [("time", [toString (std.Seconds time)]), ("mode", [mode])]) none with
  | none => none
  | some (Except.error err) => some (some err)
  | some (Except.ok req) =>
    match s.client.do std req with
    | none => none
    | some (_, err) => some err

/-- Method `URL` of `Switch`: the dereferenced base URL, `none` on panic. -/
def Switch.URL (s : Switch) : Option URL :=
  s.baseURL

/-- ASCII white space, the part of the white space of `bytes.TrimSpace` that
`sampleStd` trims. -/
def isSpace (c : Char) : Bool :=
  c = ' ' || c = '\t' || c = '\n' || c = '\r' || c.toNat = 11 || c.toNat = 12

/-- A small instance of `Std`, used to evaluate the definitions on concrete
inputs.  It knows the methods `GET` and `POST`, four reason phrases and ASCII
white space, resolves a relative path against the root of the base URL, and
joins the first values of the parameters in the order given. -/
def sampleStd : Std where
  ResolveReference := fun base ref => { base with Path := "/" ++ ref.Path, RawQuery := "" }
  Encode := fun vs => String.intercalate "&" (vs.map fun kv => kv.1 ++ "=" ++ kv.2.headD "")
  NewRequestURL := fun method u =>
    if method = "" ∨ method = "GET" ∨ method = "POST" then Except.ok u
    else Except.error (GoError.errorf ("net/http: invalid method " ++ method))
  StatusText := fun code =>
    if code = 200 then "OK"
    else if code = 404 then "Not Found"
    else if code = 500 then "Internal Server Error"
    else if code = 503 then "Service Unavailable"
    else ""
  TrimSpace := fun text =>
    String.mk ((text.data.dropWhile isSpace).reverse.dropWhile isSpace).reverse
  Seconds := fun d => d / 1000000000

/-- A client with user agent `test/0.1` and API key `abcd`, as in the tests of
the source, whose HTTP client answers every request with `resp`. -/
def clientAnswering (resp : Response) : Client :=
  { userAgent := "test/0.1", apiKey := "abcd", httpClient := some ⟨fun _ => Except.ok resp⟩ }

/-- A response with status 500 and the body ` boom` followed by a newline. -/
def errorResponse : Response :=
  { StatusCode := 500, Header := [], Body := some { data := " boom\n", readErr := none } }

/-- A response with status 503 whose body stream breaks off with the error
`unexpected EOF` after 12 bytes. -/
def brokenResponse : Response :=
  { StatusCode := 503, Header := [],
    Body := some { data := "Service Unav", readErr := some (GoError.new "unexpected EOF") } }

/-- A response with status 200 whose body is present and yields no byte. -/
def emptyResponse : Response :=
  { StatusCode := 200, Header := [], Body := some { data := "", readErr := none } }

/-- A response with status 200 and a nil body. -/
def bodilessResponse : Response :=
  { StatusCode := 200, Header := [], Body := none }

/-- A request to evaluate `do` and `doJSON` on. -/
def sampleRequest : Request :=
  { Method := "GET", URL := ⟨"http", "192.0.2.7", "/report", ""⟩, Header := [], Body := none }

/-- A decoding target of Go type `string` that takes the whole text. -/
def textTarget : JSONTarget String where
  decode := fun b _ => (b.data, none)

/-- A switch at `http://192.0.2.7` whose device answers every request with
`resp`. -/
def sampleSwitch (resp : Response) : Switch :=
  { baseURL := some ⟨"http", "192.0.2.7", "", ""⟩, client := clientAnswering resp }

/-- A decoding target of Go type `*SwitchReport` that reads `relay` off the
presence of the text `true`; it stands where a target is asked for. -/
def reportTarget : JSONTarget SwitchReport where
  decode := fun b v => ({ v with Relay := b.data = "true" }, none)

/-- A decoding target of Go type `*SwitchTemperature` that leaves the value
as it is; it stands where a target is asked for. -/
def temperatureTarget : JSONTarget SwitchTemperature where
  decode := fun _ v => (v, none)

/-- Go `url.shouldEscape` in the mode `encodeQueryComponent`: everything is
escaped but the ASCII letters and digits and the four marks `-`, `_`, `.`
and `~`. -/
def shouldEscape (c : Char) : Bool :=
  !(c.isAlphanum || c = '-' || c = '_' || c = '.' || c = '~')

/-- The digit of `n < 16` in Go's `upperhex`, `"0123456789ABCDEF"`. -/
def upperhex (n : Nat) : Char :=
  if n < 10 then Char.ofNat (48 + n) else Char.ofNat (55 + n)

/-- What Go `url.QueryEscape` writes for one character: the character itself
when it need not be escaped, `+` for a space, and `%XX` for each byte of its
UTF-8 form otherwise. -/
def escapeChar (c : Char) : List Char :=
  if !shouldEscape c then [c]
  else if c = ' ' then ['+']
  else (String.utf8EncodeChar c).flatMap fun b =>
    ['%', upperhex (b.toNat / 16), upperhex (b.toNat % 16)]

/-- Go `url.QueryEscape`. -/
def QueryEscape (s : String) : String :=
  String.mk (s.data.flatMap escapeChar)

/-- One step of sorting the keys of a `url.Values`: `kv` is put before the
first entry with a larger key. -/
def insertByKey (kv : String × List String) : Values → Values
  | [] => [kv]
  | x :: xs => if kv.1 < x.1 then kv :: x :: xs else x :: insertByKey kv xs

/-- Go method `Encode` of `url.Values`: the keys in sorted order, and for each
key, each of its values as `key=value`, both escaped, joined by `&`. -/
def Values.Encode (v : Values) : String :=
  String.intercalate "&"
    ((v.foldr insertByKey []).flatMap fun kv =>
      kv.2.map fun value => QueryEscape kv.1 ++ "=" ++ QueryEscape value)

/-- The instance `sampleStd` with `url.Values.Encode` written out. -/
def goStd : Std :=
  { sampleStd with Encode := Values.Encode }

/-- Go `parseDevicePayload` with each index and slice expression checked as
the Go runtime checks it: `none` stands for the run-time panic on an index or
slice bound out of range. -/
def parseDevicePayloadChecked (buf : List Byte) (addr : Option Addr) :
    Option (Device × Option GoError) :=
  if buf.length < 8 then
    some (Device.zero, some (GoError.errorf ("payload too small: " ++ Nat.repr buf.length)))
  else
    if 6 ≤ buf.length then
      match buf[6]?, buf[7]? with
      | some typ, some status =>
        some ({ Address := addr
                MAC := buf.take 6
                Type_ := typ
                MeshChild := decide (status.val &&& (1 <<< 0) ≠ 0)
                Registered := decide (status.val &&& (1 <<< 1) ≠ 0)
                Cloud := decide (status.val &&& (1 <<< 2) ≠ 0) }, none)
      | _, _ => none
    else none

/-- Whether `text` occurs in `s` as a contiguous piece. -/
def Contains (s text : String) : Prop :=
  ∃ pre post : String, s = pre ++ text ++ post

/-- What the error `e` returned for a response `resp` with a status outside
[200,300) is like.  When the body is nil, `e` wraps `ErrStatus` and its text
contains the decimal status code; when the body is read to its end, the text
contains the trimmed body as well; when reading the body fails with `err`,
`e` is the error `error reading body: ...` made with `%w` of `err`, so it wraps
`err`, and it wraps `ErrStatus` only if `err` does. -/
def StatusFailure (std : Std) (resp : Response) (e : GoError) : Prop :=
  (resp.Body = none →
    e.Is ErrStatus = true ∧ Contains e.Error (toString resp.StatusCode)) ∧
  (∀ body, resp.Body = some body → body.readErr = none →
    e.Is ErrStatus = true ∧ Contains e.Error (toString resp.StatusCode) ∧
    Contains e.Error (std.TrimSpace body.data)) ∧
  (∀ body err, resp.Body = some body → body.readErr = some err →
    e = GoError.wrapf ("error reading body: " ++ err.Error) err ∧
    e.Is err = true ∧ e.Is ErrStatus = err.Is ErrStatus)

/-! ## Lemmas on the packet decoder -/

/-- The three status tests of `parseDevicePayload` read bits 0, 1 and 2. -/
theorem status_mask_testBit (n : Nat) (i : Nat) :
    decide (n &&& (1 <<< i) ≠ 0) = n.testBit i := by
  rw [Nat.one_shiftLeft, Nat.and_comm]
  by_cases h : n.testBit i
  · rw [h, decide_eq_true_eq]
    intro h0
    have := congrArg (fun m => m.testBit i) h0
    simp [Nat.testBit_and, Nat.testBit_two_pow_self, h] at this
  · simp only [Bool.not_eq_true] at h
    rw [h, decide_eq_false_iff_not, not_not]
    apply Nat.eq_of_testBit_eq
    intro j
    simp only [Nat.testBit_and, Nat.zero_testBit, Nat.testBit_two_pow]
    by_cases hj : i = j
    · subst hj; simp [h]
    · simp [hj]

/-- What `parseDevicePayload` returns on a buffer of at least 8 bytes. -/
theorem parseDevicePayload_of_le (buf : List Byte) (addr : Option Addr)
    (h : 8 ≤ buf.length) :
    parseDevicePayload buf addr =
      ({ Address := addr
         MAC := buf.take 6
         Type_ := buf.getD 6 0
         MeshChild := (buf.getD 7 0).val.testBit 0
         Registered := (buf.getD 7 0).val.testBit 1
         Cloud := (buf.getD 7 0).val.testBit 2 }, none) := by
  have h6 : 6 < buf.length := by omega
  have h7 : 7 < buf.length := by omega
  have hlt : ¬ buf.length < 8 := by omega
  simp only [parseDevicePayload, hlt, dite_false, status_mask_testBit]
  simp [List.getD_eq_getElem?_getD, List.getElem?_eq_getElem, h6, h7]

/-- What `parseDevicePayload` returns on a buffer of fewer than 8 bytes. -/
theorem parseDevicePayload_of_lt (buf : List Byte) (addr : Option Addr)
    (h : buf.length < 8) :
    parseDevicePayload buf addr =
      (Device.zero, some (GoError.errorf ("payload too small: " ++ Nat.repr buf.length))) := by
  simp [parseDevicePayload, h]

/-- Bits 0 to 2 of a number are those of its remainder modulo 8. -/
theorem testBit_mod_eight (n i : Nat) (hi : i < 3) : (n % 8).testBit i = n.testBit i := by
  have h8 : (8 : Nat) = 2 ^ 3 := by norm_num
  rw [h8, Nat.testBit_mod_two_pow]
  simp [hi]

/-- What `parseDevicePayload` returns on 7 bytes followed by a status byte. -/
theorem parseDevicePayload_snoc (p : List Byte) (s : Byte) (addr : Option Addr)
    (hp : p.length = 7) :
    parseDevicePayload (p ++ [s]) addr =
      ({ Address := addr
         MAC := p.take 6
         Type_ := p.getD 6 0
         MeshChild := s.val.testBit 0
         Registered := s.val.testBit 1
         Cloud := s.val.testBit 2 }, none) := by
  rw [parseDevicePayload_of_le _ addr (by simp [hp])]
  have h6 : 6 < p.length := by omega
  have h7 : (p ++ [s]).getD 7 0 = s := by
    rw [List.getD_eq_getElem?_getD, List.getElem?_append_right (by omega)]
    simp [hp]
  have h6' : (p ++ [s]).getD 6 0 = p.getD 6 0 := by
    rw [List.getD_eq_getElem?_getD, List.getD_eq_getElem?_getD, List.getElem?_append_left h6]
  rw [h7, h6', List.take_append_of_le_length (by omega)]

/-! ## Lemmas on the transport -/

/-- A text occurs in what is put before it, itself and what is put after it. -/
theorem Contains.intro (pre text post : String) : Contains (pre ++ text ++ post) text :=
  ⟨pre, post, rfl⟩

/-- The status message carries the reason phrase and the decimal code. -/
theorem statusMessage_contains (std : Std) (code : Int) (tail : String) :
    Contains (statusMessage std code ++ tail) (std.StatusText code) ∧
    Contains (statusMessage std code ++ tail) (toString code) := by
  refine ⟨⟨"", ": " ++ toString code ++ ", " ++ ErrStatus.Error ++ tail, ?_⟩,
    ⟨std.StatusText code ++ ": ", ", " ++ ErrStatus.Error ++ tail, ?_⟩⟩
  · simp [statusMessage, String.append_assoc]
  · simp [statusMessage, String.append_assoc]

/-- An error made with `%w` applied to `ErrStatus` wraps `ErrStatus`. -/
theorem Is_wrapf_ErrStatus (text : String) : (GoError.wrapf text ErrStatus).Is ErrStatus = true := by
  simp [GoError.Is, ErrStatus]

/-- Result of `do` on a response with a status in [200,300). -/
theorem do_of_success (std : Std) (c : Client) (req : Request) (h : HTTPClient) (resp : Response)
    (hc : c.httpClient = some h) (hd : h.Do req = Except.ok resp)
    (h2 : 200 ≤ resp.StatusCode ∧ resp.StatusCode < 300) :
    c.do std req = some (some resp, none) := by
  have hn : ¬ (resp.StatusCode < 200 ∨ resp.StatusCode ≥ 300) := by omega
  simp [Client.do, hc, hd, hn]

/-- Result of `do` on a response with a status outside [200,300) and a nil body. -/
theorem do_of_status_nil_body (std : Std) (c : Client) (req : Request) (h : HTTPClient)
    (resp : Response) (hc : c.httpClient = some h) (hd : h.Do req = Except.ok resp)
    (hn : resp.StatusCode < 200 ∨ 300 ≤ resp.StatusCode) (hb : resp.Body = none) :
    c.do std req =
      some (some resp, some (GoError.wrapf (statusMessage std resp.StatusCode) ErrStatus)) := by
  have hn' : resp.StatusCode < 200 ∨ resp.StatusCode ≥ 300 := by omega
  simp [Client.do, hc, hd, hn', hb]

/-- Result of `do` on a response with a status outside [200,300) whose body is
read to its end. -/
theorem do_of_status_body (std : Std) (c : Client) (req : Request) (h : HTTPClient)
    (resp : Response) (b : Body) (hc : c.httpClient = some h) (hd : h.Do req = Except.ok resp)
    (hn : resp.StatusCode < 200 ∨ 300 ≤ resp.StatusCode) (hb : resp.Body = some b)
    (hr : b.readErr = none) :
    c.do std req =
      some (some resp, some (GoError.wrapf
        (statusMessage std resp.StatusCode ++ " \x27" ++ std.TrimSpace b.data ++ "\x27")
        ErrStatus)) := by
  have hn' : resp.StatusCode < 200 ∨ resp.StatusCode ≥ 300 := by omega
  simp [Client.do, hc, hd, hn', hb, ReadAll, hr]

/-- Result of `do` on a response with a status outside [200,300) whose body
fails to be read. -/
theorem do_of_status_read_error (std : Std) (c : Client) (req : Request) (h : HTTPClient)
    (resp : Response) (b : Body) (e : GoError) (hc : c.httpClient = some h)
    (hd : h.Do req = Except.ok resp)
    (hn : resp.StatusCode < 200 ∨ 300 ≤ resp.StatusCode) (hb : resp.Body = some b)
    (hr : b.readErr = some e) :
    c.do std req = some (none, some (GoError.wrapf ("error reading body: " ++ e.Error) e)) := by
  have hn' : resp.StatusCode < 200 ∨ resp.StatusCode ≥ 300 := by omega
  simp [Client.do, hc, hd, hn', hb, ReadAll, hr]

/-- On a response with a status outside [200,300) `do` returns a non-nil error. -/
theorem do_of_status (std : Std) (c : Client) (req : Request) (h : HTTPClient)
    (resp : Response) (hc : c.httpClient = some h) (hd : h.Do req = Except.ok resp)
    (hn : resp.StatusCode < 200 ∨ 300 ≤ resp.StatusCode) :
    ∃ r e, c.do std req = some (r, some e) := by
  cases hb : resp.Body with
  | none => exact ⟨_, _, do_of_status_nil_body std c req h resp hc hd hn hb⟩
  | some b =>
    cases hr : b.readErr with
    | none => exact ⟨_, _, do_of_status_body std c req h resp b hc hd hn hb hr⟩
    | some e => exact ⟨_, _, do_of_status_read_error std c req h resp b e hc hd hn hb hr⟩

/-- When `do` returns a non-nil error, `doJSON` returns a nil response with
that error and leaves the target alone. -/
theorem doJSON_of_do_error {V : Type} (std : Std) (c : Client) (req : Request)
    (target : JSONTarget V) (v : V) (r : Option Response) (e : GoError)
    (hdo : c.do std req = some (r, some e)) :
    c.doJSON std req target v = some ((none, some e), v) := by
  simp [Client.doJSON, hdo]

/-- Result of `doJSON` on a response with a status in [200,300) and a nil body. -/
theorem doJSON_of_success_nil_body {V : Type} (std : Std) (c : Client) (req : Request)
    (target : JSONTarget V) (v : V) (h : HTTPClient) (resp : Response)
    (hc : c.httpClient = some h) (hd : h.Do req = Except.ok resp)
    (h2 : 200 ≤ resp.StatusCode ∧ resp.StatusCode < 300) (hb : resp.Body = none) :
    c.doJSON std req target v = some ((some resp, none), v) := by
  simp [Client.doJSON, do_of_success std c req h resp hc hd h2, hb]

/-- Result of `doJSON` on a response with a status in [200,300) whose body is
present: what the decoder makes of it. -/
theorem doJSON_of_success_body {V : Type} (std : Std) (c : Client) (req : Request)
    (target : JSONTarget V) (v : V) (h : HTTPClient) (resp : Response) (b : Body)
    (hc : c.httpClient = some h) (hd : h.Do req = Except.ok resp)
    (h2 : 200 ≤ resp.StatusCode ∧ resp.StatusCode < 300) (hb : resp.Body = some b) :
    c.doJSON std req target v =
      match jsonDecode target b v with
      | (v, some err) => some ((none, some err), v)
      | (v, none) => some ((some resp, none), v) := by
  simp [Client.doJSON, do_of_success std c req h resp hc hd h2, hb]

/-- The decoder on a stream that yields no byte: an error, the target untouched. -/
theorem jsonDecode_empty {V : Type} (target : JSONTarget V) (b : Body) (v : V)
    (he : b.data = "") :
    jsonDecode target b v = (v, some (b.readErr.getD EOF)) := by
  unfold jsonDecode
  rw [if_pos he]
  cases b.readErr <;> rfl

/-- With a non-nil base URL `newRequest` does not panic. -/
theorem newRequest_of_baseURL (std : Std) (c : Client) (b : URL) (method path : String)
    (params : Option Values) (body : Option BodyValue) :
    ∃ x, c.newRequest std (some b) method path params body = some x := by
  unfold Client.newRequest
  simp only
  split
  · exact ⟨_, rfl⟩
  · split <;> exact ⟨_, rfl⟩

/-- On a device that answers every request with a status outside [200,300),
`do` returns a non-nil error on every request. -/
theorem do_error_of_device (std : Std) (c : Client) (h : HTTPClient)
    (hc : c.httpClient = some h)
    (hDo : ∀ req, ∃ resp, h.Do req = Except.ok resp ∧
      (resp.StatusCode < 200 ∨ 300 ≤ resp.StatusCode))
    (req : Request) : ∃ r e, c.do std req = some (r, some e) := by
  obtain ⟨resp, hd, hn⟩ := hDo req
  exact do_of_status std c req h resp hc hd hn

/-- An error wraps itself. -/
theorem Is_self (e : GoError) : e.Is e = true := by
  cases e <;> simp [GoError.Is]

/-- On a response with a status outside [200,300) `do` returns a non-nil
error of the kind `StatusFailure` describes. -/
theorem do_status_failure (std : Std) (c : Client) (req : Request) (h : HTTPClient)
    (resp : Response) (hc : c.httpClient = some h) (hd : h.Do req = Except.ok resp)
    (hn : resp.StatusCode < 200 ∨ 300 ≤ resp.StatusCode) :
    ∃ r e, c.do std req = some (r, some e) ∧ StatusFailure std resp e := by
  unfold StatusFailure
  cases hb : resp.Body with
  | none =>
    refine ⟨_, _, do_of_status_nil_body std c req h resp hc hd hn hb, fun _ => ?_,
      fun body hb' => by simp at hb', fun body err hb' => by simp at hb'⟩
    refine ⟨Is_wrapf_ErrStatus _, ?_⟩
    simpa using (statusMessage_contains std resp.StatusCode "").2
  | some b =>
    cases hr : b.readErr with
    | none =>
      refine ⟨_, _, do_of_status_body std c req h resp b hc hd hn hb hr,
        fun hb' => by simp at hb', fun body hb' _ => ?_, fun body err hb' hr' => ?_⟩
      · have hbb : body = b := by simpa using hb'.symm
        subst hbb
        refine ⟨Is_wrapf_ErrStatus _, ?_, ?_⟩
        · have := (statusMessage_contains std resp.StatusCode
            (" \x27" ++ std.TrimSpace body.data ++ "\x27")).2
          simpa [GoError.Error, String.append_assoc] using this
        · exact ⟨statusMessage std resp.StatusCode ++ " \x27", "\x27", rfl⟩
      · have hbb : body = b := by simpa using hb'.symm
        subst hbb
        rw [hr] at hr'
        simp at hr'
    | some e =>
      refine ⟨_, _, do_of_status_read_error std c req h resp b e hc hd hn hb hr,
        fun hb' => by simp at hb', fun body hb' hr' => ?_, fun body err hb' hr' => ?_⟩
      · have hbb : body = b := by simpa using hb'.symm
        subst hbb
        rw [hr] at hr'
        simp at hr'
      · have hbb : body = b := by simpa using hb'.symm
        subst hbb
        have he : err = e := by rw [hr] at hr'; simpa using hr'.symm
        subst he
        refine ⟨rfl, ?_, ?_⟩
        · simp [GoError.Is, Is_self]
        · simp [GoError.Is, ErrStatus]

/-! ## Claims on the packet decoder -/

/-- C1, as stated, fails: a payload of 9 bytes, whose length is not 8, is not
rejected; `parseDevicePayload` returns a nil error and the descriptor decoded
from its first 8 bytes. -/
theorem parseDevicePayload_accepts_nine_bytes :
    ([0x01, 0x23, 0x45, 0x67, 0x89, 0xab, 102, 0x01, 0xff] : List Byte).length ≠ 8 ∧
    parseDevicePayload [0x01, 0x23, 0x45, 0x67, 0x89, 0xab, 102, 0x01, 0xff] (some "192.0.2.7:7979") =
      ({ Address := some "192.0.2.7:7979"
         MAC := [0x01, 0x23, 0x45, 0x67, 0x89, 0xab]
         Type_ := DeviceTypeBulb
         Cloud := false
         Registered := false
         MeshChild := true }, none) := by
  decide

/-- C1, amended: `parseDevicePayload` returns a non-nil error exactly for the
payloads shorter than 8 bytes, and then the descriptor it returns is the zero
value; a payload of 8 bytes or more gets a nil error, and one longer than 8
bytes is decoded as its first 8 bytes are. -/
theorem parseDevicePayload_error_iff_short (buf : List Byte) (addr : Option Addr) :
    ((parseDevicePayload buf addr).2 ≠ none ↔ buf.length < 8) ∧
    ((parseDevicePayload buf addr).2 ≠ none → (parseDevicePayload buf addr).1 = Device.zero) ∧
    (8 ≤ buf.length → parseDevicePayload buf addr = parseDevicePayload (buf.take 8) addr) := by
  by_cases h : buf.length < 8
  · rw [parseDevicePayload_of_lt buf addr h]
    refine ⟨by simp [h], fun _ => rfl, fun h8 => absurd h8 (by omega)⟩
  · have h8 : 8 ≤ buf.length := by omega
    have ht : 8 ≤ (buf.take 8).length := by simp [h8]
    refine ⟨?_, ?_, fun _ => ?_⟩
    · rw [parseDevicePayload_of_le buf addr h8]; simp [h]
    · rw [parseDevicePayload_of_le buf addr h8]; simp
    · rw [parseDevicePayload_of_le buf addr h8, parseDevicePayload_of_le _ addr ht]
      simp [List.take_take, List.getD_eq_getElem?_getD, List.getElem?_take]

/-- C2: on a payload of exactly 8 bytes `parseDevicePayload` returns a nil
error and a descriptor whose MAC is bytes 0..5 of the payload (6 bytes, in
order), whose Type is byte 6 and whose Address is the sender address given;
the MAC followed by the Type byte is bytes 0..6 of the payload. -/
theorem parseDevicePayload_eight_bytes (buf : List Byte) (addr : Option Addr)
    (h : buf.length = 8) :
    (parseDevicePayload buf addr).2 = none ∧
    (parseDevicePayload buf addr).1.MAC = buf.take 6 ∧
    (parseDevicePayload buf addr).1.MAC.length = 6 ∧
    (∀ i : Nat, i < 6 → (parseDevicePayload buf addr).1.MAC[i]? = buf[i]?) ∧
    some (parseDevicePayload buf addr).1.Type_ = buf[6]? ∧
    (parseDevicePayload buf addr).1.Address = addr ∧
    (parseDevicePayload buf addr).1.MAC ++ [(parseDevicePayload buf addr).1.Type_] = buf.take 7 := by
  rw [parseDevicePayload_of_le buf addr (by omega)]
  have h6 : 6 < buf.length := by omega
  refine ⟨rfl, rfl, by simp [h], ?_, ?_, rfl, ?_⟩
  · intro i hi
    simp [List.getElem?_take, hi]
  · simp [List.getD_eq_getElem?_getD, List.getElem?_eq_getElem, h6]
  · have h7 : buf.take 7 = buf.take 6 ++ [buf[6]] := by
      rw [show (7 : Nat) = 6 + 1 from rfl, List.take_succ, List.getElem?_eq_getElem h6]
      rfl
    simp only [List.getD_eq_getElem?_getD, List.getElem?_eq_getElem, h6, Option.getD_some, h7]

/-- Witness of C2: the test vector `01 23 45 67 89 ab 66 01` of the source. -/
theorem parseDevicePayload_eight_bytes_witness :
    (parseDevicePayload [0x01, 0x23, 0x45, 0x67, 0x89, 0xab, 102, 0x01] none).2 = none ∧
    (parseDevicePayload [0x01, 0x23, 0x45, 0x67, 0x89, 0xab, 102, 0x01] none).1.MAC
      = [0x01, 0x23, 0x45, 0x67, 0x89, 0xab] ∧
    (parseDevicePayload [0x01, 0x23, 0x45, 0x67, 0x89, 0xab, 102, 0x01] none).1.Type_
      = DeviceTypeBulb := by
  have h := parseDevicePayload_eight_bytes [0x01, 0x23, 0x45, 0x67, 0x89, 0xab, 102, 0x01] none
    (by decide)
  exact ⟨h.1, h.2.1, by decide⟩

/-- C3: for an 8-byte payload, written as 7 bytes `p` followed by the status
byte `s`, the decoded MeshChild, Registered and Cloud are bits 0, 1 and 2 of
`s`; flipping one of these bits in the status byte flips the corresponding
flag and changes nothing else of the descriptor; and a status byte `t` that
agrees with `s` on bits 0..2 (differs at most in bits 3..7) gives the same
result. -/
theorem parseDevicePayload_status_flags (p : List Byte) (s : Byte) (addr : Option Addr)
    (hp : p.length = 7) :
    (parseDevicePayload (p ++ [s]) addr).2 = none ∧
    (parseDevicePayload (p ++ [s]) addr).1.MeshChild = s.val.testBit 0 ∧
    (parseDevicePayload (p ++ [s]) addr).1.Registered = s.val.testBit 1 ∧
    (parseDevicePayload (p ++ [s]) addr).1.Cloud = s.val.testBit 2 ∧
    (∀ t : Byte,
      (t.val = s.val ^^^ 1 → (parseDevicePayload (p ++ [t]) addr).1 =
        { (parseDevicePayload (p ++ [s]) addr).1 with
          MeshChild := !(parseDevicePayload (p ++ [s]) addr).1.MeshChild }) ∧
      (t.val = s.val ^^^ 2 → (parseDevicePayload (p ++ [t]) addr).1 =
        { (parseDevicePayload (p ++ [s]) addr).1 with
          Registered := !(parseDevicePayload (p ++ [s]) addr).1.Registered }) ∧
      (t.val = s.val ^^^ 4 → (parseDevicePayload (p ++ [t]) addr).1 =
        { (parseDevicePayload (p ++ [s]) addr).1 with
          Cloud := !(parseDevicePayload (p ++ [s]) addr).1.Cloud }) ∧
      (t.val % 8 = s.val % 8 →
        parseDevicePayload (p ++ [t]) addr = parseDevicePayload (p ++ [s]) addr)) := by
  rw [parseDevicePayload_snoc p s addr hp]
  refine ⟨rfl, rfl, rfl, rfl, fun t => ?_⟩
  rw [parseDevicePayload_snoc p t addr hp]
  have f : ∀ j i : Nat, (s.val ^^^ 2 ^ j).testBit i = xor (s.val.testBit i) (decide (j = i)) :=
    fun j i => by rw [Nat.testBit_xor, Nat.testBit_two_pow]
  refine ⟨fun ht => ?_, fun ht => ?_, fun ht => ?_, fun ht => ?_⟩
  · rw [ht, show (1 : Nat) = 2 ^ 0 from rfl]
    simp only [f]
    generalize s.val.testBit 0 = a
    generalize s.val.testBit 1 = b
    generalize s.val.testBit 2 = c
    cases a <;> cases b <;> cases c <;> rfl
  · rw [ht, show (2 : Nat) = 2 ^ 1 from rfl]
    simp only [f]
    generalize s.val.testBit 0 = a
    generalize s.val.testBit 1 = b
    generalize s.val.testBit 2 = c
    cases a <;> cases b <;> cases c <;> rfl
  · rw [ht, show (4 : Nat) = 2 ^ 2 from rfl]
    simp only [f]
    generalize s.val.testBit 0 = a
    generalize s.val.testBit 1 = b
    generalize s.val.testBit 2 = c
    cases a <;> cases b <;> cases c <;> rfl
  · have e0 := testBit_mod_eight t.val 0 (by omega)
    have e1 := testBit_mod_eight t.val 1 (by omega)
    have e2 := testBit_mod_eight t.val 2 (by omega)
    rw [ht, testBit_mod_eight s.val _ (by omega)] at e0 e1 e2
    simp only [← e0, ← e1, ← e2]

/-- Witness of C3: with status `0x07` all three flags are set, with status
`0x01` only MeshChild is, and status `0xf9` decodes as status `0x01` does. -/
theorem parseDevicePayload_status_flags_witness :
    (parseDevicePayload ([0x01, 0x23, 0x45, 0x67, 0x89, 0xab, 112] ++ [0x07]) none).1 =
      { Address := none, MAC := [0x01, 0x23, 0x45, 0x67, 0x89, 0xab], Type_ := DeviceTypeGateway,
        Cloud := true, Registered := true, MeshChild := true } ∧
    (parseDevicePayload ([0x01, 0x23, 0x45, 0x67, 0x89, 0xab, 112] ++ [0x01]) none).1 =
      { Address := none, MAC := [0x01, 0x23, 0x45, 0x67, 0x89, 0xab], Type_ := DeviceTypeGateway,
        Cloud := false, Registered := false, MeshChild := true } ∧
    parseDevicePayload ([0x01, 0x23, 0x45, 0x67, 0x89, 0xab, 112] ++ [0xf9]) none =
      parseDevicePayload ([0x01, 0x23, 0x45, 0x67, 0x89, 0xab, 112] ++ [0x01]) none :=
  ⟨by decide, by decide,
    ((parseDevicePayload_status_flags [0x01, 0x23, 0x45, 0x67, 0x89, 0xab, 112] 0x01 none
      (by decide)).2.2.2.2 0xf9).2.2.2 (by decide)⟩

/-- C4, evaluation at the failing input: the socket receives a datagram of 3
bytes, `01 02 03`; `Device` returns a nil error and a descriptor decoded from
the 8-byte receive buffer, whose last five bytes are still zero. -/
theorem Discover_Device_three_byte_datagram :
    Discover.Device
      { Address := "", Network := "",
        ListenConfig := ⟨fun _ _ => Except.ok ⟨Except.ok ([0x01, 0x02, 0x03], some "192.0.2.7:7979")⟩⟩ } =
      ({ Address := some "192.0.2.7:7979"
         MAC := [0x01, 0x02, 0x03, 0x00, 0x00, 0x00]
         Type_ := 0
         Cloud := false
         Registered := false
         MeshChild := false }, none) := by
  decide

/-! ## Claims on the transport -/

/-- C5, as stated, fails: the transport delivers a response with status 503
whose body stream breaks while it is read; `do` returns a nil response, not
that response, and an error that wraps the read error and not `ErrStatus`. -/
theorem Client_do_body_read_failure :
    Client.do sampleStd (clientAnswering brokenResponse) sampleRequest =
      some (none, some (GoError.wrapf "error reading body: unexpected EOF"
        (GoError.new "unexpected EOF"))) ∧
    (GoError.wrapf "error reading body: unexpected EOF" (GoError.new "unexpected EOF")).Is
      ErrStatus = false := by
  decide

/-- C5, amended: for a response delivered without transport error, `do`
returns a nil error exactly when 200 <= StatusCode < 300.  For any other
status code: when the body is nil, or is read to its end, `do` returns that
response and an error that wraps `ErrStatus` and whose text contains the
reason phrase, the decimal status code and, with a body, the trimmed body;
when reading the body fails, `do` returns a nil response and an error that
wraps the read error. -/
theorem Client_do_classifies (std : Std) (c : Client) (req : Request) (h : HTTPClient)
    (resp : Response) (hc : c.httpClient = some h) (hd : h.Do req = Except.ok resp) :
    ∃ r : Option Response × Option GoError, c.do std req = some r ∧
      (r.2 = none ↔ (200 ≤ resp.StatusCode ∧ resp.StatusCode < 300)) ∧
      (¬ (200 ≤ resp.StatusCode ∧ resp.StatusCode < 300) →
        (resp.Body = none →
          r.1 = some resp ∧ ∃ e, r.2 = some e ∧ e.Is ErrStatus = true ∧
            Contains e.Error (std.StatusText resp.StatusCode) ∧
            Contains e.Error (toString resp.StatusCode)) ∧
        (∀ b, resp.Body = some b → b.readErr = none →
          r.1 = some resp ∧ ∃ e, r.2 = some e ∧ e.Is ErrStatus = true ∧
            Contains e.Error (std.StatusText resp.StatusCode) ∧
            Contains e.Error (toString resp.StatusCode) ∧
            Contains e.Error (std.TrimSpace b.data)) ∧
        (∀ b err, resp.Body = some b → b.readErr = some err →
          r.1 = none ∧ ∃ e, r.2 = some e ∧ e.Is err = true ∧
            e.Error = "error reading body: " ++ err.Error)) := by
  by_cases h2 : 200 ≤ resp.StatusCode ∧ resp.StatusCode < 300
  · exact ⟨_, do_of_success std c req h resp hc hd h2, by simp [h2], fun hn => absurd h2 hn⟩
  · have hn : resp.StatusCode < 200 ∨ 300 ≤ resp.StatusCode := by omega
    cases hb : resp.Body with
    | none =>
      refine ⟨_, do_of_status_nil_body std c req h resp hc hd hn hb, by simp [h2], fun _ => ?_⟩
      refine ⟨fun _ => ⟨rfl, _, rfl, Is_wrapf_ErrStatus _, ?_, ?_⟩, fun b hb' => ?_,
        fun b err hb' => ?_⟩
      · simpa using (statusMessage_contains std resp.StatusCode "").1
      · simpa using (statusMessage_contains std resp.StatusCode "").2
      · simp at hb'
      · simp at hb'
    | some b =>
      cases hr : b.readErr with
      | none =>
        refine ⟨_, do_of_status_body std c req h resp b hc hd hn hb hr, by simp [h2], fun _ => ?_⟩
        refine ⟨fun hb' => by simp at hb', fun b' hb' _ => ?_, fun b' err hb' hr' => ?_⟩
        · have hbb : b' = b := by simpa using hb'.symm
          subst hbb
          refine ⟨rfl, _, rfl, Is_wrapf_ErrStatus _, ?_, ?_, ?_⟩
          · have := (statusMessage_contains std resp.StatusCode
              (" \x27" ++ std.TrimSpace b'.data ++ "\x27")).1
            simpa [GoError.Error, String.append_assoc] using this
          · have := (statusMessage_contains std resp.StatusCode
              (" \x27" ++ std.TrimSpace b'.data ++ "\x27")).2
            simpa [GoError.Error, String.append_assoc] using this
          · exact ⟨statusMessage std resp.StatusCode ++ " \x27", "\x27", rfl⟩
        · have hbb : b' = b := by simpa using hb'.symm
          subst hbb
          rw [hr] at hr'
          simp at hr'
      | some e =>
        refine ⟨_, do_of_status_read_error std c req h resp b e hc hd hn hb hr, by simp [h2],
          fun _ => ?_⟩
        refine ⟨fun hb' => by simp at hb', fun b' hb' hr' => ?_, fun b' err hb' hr' => ?_⟩
        · have hbb : b' = b := by simpa using hb'.symm
          subst hbb
          rw [hr] at hr'
          simp at hr'
        · have hbb : b' = b := by simpa using hb'.symm
          subst hbb
          have he : err = e := by rw [hr] at hr'; simpa using hr'.symm
          subst he
          refine ⟨rfl, _, rfl, ?_, rfl⟩
          cases err <;> simp [GoError.Is]

/-- Witness of C5: a response with status 500 and body ` boom`, newline. -/
theorem Client_do_classifies_witness :
    ∃ r : Option Response × Option GoError,
      Client.do sampleStd (clientAnswering errorResponse) sampleRequest = some r ∧
      r.2 = some (GoError.wrapf "Internal Server Error: 500, status code error \x27boom\x27"
        ErrStatus) := by
  obtain ⟨r, hr, _, _⟩ := Client_do_classifies sampleStd (clientAnswering errorResponse)
    sampleRequest ⟨fun _ => Except.ok errorResponse⟩ errorResponse rfl rfl
  refine ⟨r, hr, ?_⟩
  have hv : Client.do sampleStd (clientAnswering errorResponse) sampleRequest =
      some (some errorResponse,
        some (GoError.wrapf "Internal Server Error: 500, status code error \x27boom\x27"
          ErrStatus)) := by decide
  rw [hv] at hr
  cases hr
  rfl

/-- C6, as stated, fails: on a response with status 500 `do` returns the
response together with the status error, while `doJSON` returns a nil
response with that error. -/
theorem Client_doJSON_drops_response :
    Client.do sampleStd (clientAnswering errorResponse) sampleRequest =
      some (some errorResponse,
        some (GoError.wrapf "Internal Server Error: 500, status code error \x27boom\x27"
          ErrStatus)) ∧
    Client.doJSON sampleStd (clientAnswering errorResponse) sampleRequest textTarget "before" =
      some ((none,
        some (GoError.wrapf "Internal Server Error: 500, status code error \x27boom\x27"
          ErrStatus)), "before") := by
  decide

/-- C6, amended: for every response with a status outside [200,300), `do`
returns a non-nil error and `doJSON` returns that same error together with a
nil response, whatever response `do` returned with it, and leaves the output
value as it was. -/
theorem Client_doJSON_non2xx {V : Type} (std : Std) (c : Client) (req : Request)
    (target : JSONTarget V) (v : V) (h : HTTPClient) (resp : Response)
    (hc : c.httpClient = some h) (hd : h.Do req = Except.ok resp)
    (hn : resp.StatusCode < 200 ∨ 300 ≤ resp.StatusCode) :
    ∃ r e, c.do std req = some (r, some e) ∧
      c.doJSON std req target v = some ((none, some e), v) := by
  obtain ⟨r, e, hdo⟩ := do_of_status std c req h resp hc hd hn
  exact ⟨r, e, hdo, doJSON_of_do_error std c req target v r e hdo⟩

/-- Witness of C6: the response with status 500 and body ` boom`, newline. -/
theorem Client_doJSON_non2xx_witness :
    ∃ r e, Client.do sampleStd (clientAnswering errorResponse) sampleRequest = some (r, some e) ∧
      Client.doJSON sampleStd (clientAnswering errorResponse) sampleRequest textTarget "before" =
        some ((none, some e), "before") :=
  Client_doJSON_non2xx sampleStd (clientAnswering errorResponse) sampleRequest textTarget
    "before" ⟨fun _ => Except.ok errorResponse⟩ errorResponse rfl rfl (by decide)

/-- C7, as stated, fails: on a response with status 200 whose body is present
and empty, `doJSON` runs the decoder, which returns `io.EOF`, and so returns
a nil response and a non-nil error. -/
theorem Client_doJSON_empty_body_EOF :
    emptyResponse.StatusCode = 200 ∧
    emptyResponse.Body = some { data := "", readErr := none } ∧
    Client.doJSON sampleStd (clientAnswering emptyResponse) sampleRequest textTarget "before" =
      some ((none, some EOF), "before") := by
  decide

/-- C7, amended: for every response with a status in [200,300) whose body is
nil, `doJSON` returns the response with a nil error and leaves the output
value as it was; when the body is present and yields no byte, `doJSON`
returns a nil response and the non-nil error of the decoder (`io.EOF`, or the
error of the stream), the output value again left as it was. -/
theorem Client_doJSON_no_payload {V : Type} (std : Std) (c : Client) (req : Request)
    (target : JSONTarget V) (v : V) (h : HTTPClient) (resp : Response)
    (hc : c.httpClient = some h) (hd : h.Do req = Except.ok resp)
    (h2 : 200 ≤ resp.StatusCode ∧ resp.StatusCode < 300) :
    (resp.Body = none → c.doJSON std req target v = some ((some resp, none), v)) ∧
    (∀ b, resp.Body = some b → b.data = "" →
      c.doJSON std req target v = some ((none, some (b.readErr.getD EOF)), v)) := by
  refine ⟨fun hb => doJSON_of_success_nil_body std c req target v h resp hc hd h2 hb,
    fun b hb he => ?_⟩
  rw [doJSON_of_success_body std c req target v h resp b hc hd h2 hb,
    jsonDecode_empty target b v he]

/-- Witness of C7: the response with status 200 and a nil body. -/
theorem Client_doJSON_no_payload_witness :
    Client.doJSON sampleStd (clientAnswering bodilessResponse) sampleRequest textTarget "before" =
      some ((some bodilessResponse, none), "before") :=
  (Client_doJSON_no_payload sampleStd (clientAnswering bodilessResponse) sampleRequest
    textTarget "before" ⟨fun _ => Except.ok bodilessResponse⟩ bodilessResponse rfl rfl
    (by decide)).1 rfl

/-- C8: on every request that `newRequest` returns, header Accept is
`application/json`, header User-Agent is the user agent of the client (the
empty string included), header Token is the API key when that is non-empty
and is absent otherwise, and header Content-Type is `application/json` when
the body argument is non-nil and is absent otherwise. -/
theorem Client_newRequest_headers (std : Std) (c : Client) (baseURL : Option URL)
    (method path : String) (params : Option Values) (body : Option BodyValue) (req : Request)
    (h : c.newRequest std baseURL method path params body = some (Except.ok req)) :
    req.Header.lookup "Accept" = some ["application/json"] ∧
    req.Header.lookup "User-Agent" = some [c.userAgent] ∧
    req.Header.Get "User-Agent" = c.userAgent ∧
    (c.apiKey ≠ "" → req.Header.lookup "Token" = some [c.apiKey]) ∧
    (c.apiKey = "" → req.Header.lookup "Token" = none) ∧
    (body ≠ none → req.Header.lookup "Content-Type" = some ["application/json"]) ∧
    (body = none → req.Header.lookup "Content-Type" = none) := by
  have hH : req.Header =
      if c.apiKey ≠ "" then
        ((((if body.isSome then Header.Set [] "Content-Type" "application/json" else []).Set
          "Accept" "application/json").Set "User-Agent" c.userAgent).Set "Token" c.apiKey)
      else
        (((if body.isSome then Header.Set [] "Content-Type" "application/json" else []).Set
          "Accept" "application/json").Set "User-Agent" c.userAgent) := by
    unfold Client.newRequest at h
    cases baseURL with
    | none => simp at h
    | some b =>
      simp only at h
      generalize std.NewRequestURL method _ = res at h
      cases body with
      | none =>
        cases res with
        | error e => simp at h
        | ok url =>
          simp only [Option.some.injEq, Except.ok.injEq] at h
          subst h
          by_cases hk : c.apiKey = "" <;> simp [hk]
      | some bv =>
        cases hj : bv.json with
        | error e => simp [hj] at h
        | ok text =>
          cases res with
          | error e => simp [hj] at h
          | ok url =>
            simp only [hj, Option.some.injEq, Except.ok.injEq] at h
            subst h
            by_cases hk : c.apiKey = "" <;> simp [hk]
  rw [hH]
  cases body with
  | none =>
    by_cases hk : c.apiKey = "" <;>
      simp [hk, Header.lookup, Header.Set, Header.Get, List.lookup, List.filter]
  | some bv =>
    by_cases hk : c.apiKey = "" <;>
      simp [hk, Header.lookup, Header.Set, Header.Get, List.lookup, List.filter]

/-- Witness of C8: the request of the tests of the source, with API key
`abcd`, user agent `test/0.1` and no body. -/
theorem Client_newRequest_headers_witness :
    ∃ req, Client.newRequest sampleStd (clientAnswering errorResponse)
        (some ⟨"http", "192.0.2.7", "", ""⟩) MethodGet "test" none none = some (Except.ok req) ∧
      req.Header.lookup "Accept" = some ["application/json"] ∧
      req.Header.lookup "User-Agent" = some ["test/0.1"] ∧
      req.Header.lookup "Token" = some ["abcd"] ∧
      req.Header.lookup "Content-Type" = none := by
  have h := Client_newRequest_headers sampleStd (clientAnswering errorResponse)
    (some ⟨"http", "192.0.2.7", "", ""⟩) MethodGet "test" none none
    { Method := "GET", URL := ⟨"http", "192.0.2.7", "/test", ""⟩,
      Header := [("Token", ["abcd"]), ("User-Agent", ["test/0.1"]), ("Accept", ["application/json"])],
      Body := none } rfl
  exact ⟨_, rfl, h.1, h.2.1, h.2.2.2.1 (by decide), h.2.2.2.2.2.2 rfl⟩

/-- C9: an 8-byte payload, written as 6 bytes `p`, the type byte `c` and the
status byte `s`, decodes with a nil error and Type `c`, for every `c`; when
`c` is none of the eleven documented codes, `String` of `c` is the decimal
numeral of `c`; and `String` of each documented code is its name in the
table. -/
theorem DeviceType_String_of_code (c : DeviceType) (p : List Byte) (s : Byte)
    (addr : Option Addr) (hp : p.length = 6) :
    (parseDevicePayload (p ++ [c, s]) addr).2 = none ∧
    (parseDevicePayload (p ++ [c, s]) addr).1.Type_ = c ∧
    (c.val ∉ [102, 103, 104, 105, 106, 107, 110, 112, 113, 118, 120] →
      DeviceType.String c = Nat.repr c.val) ∧
    DeviceType.String 102 = "Bulb" ∧
    DeviceType.String 103 = "Button plus 1st generation" ∧
    DeviceType.String 104 = "Button small/simple" ∧
    DeviceType.String 105 = "LED Strip" ∧
    DeviceType.String 106 = "Switch CH" ∧
    DeviceType.String 107 = "Switch EU" ∧
    DeviceType.String 110 = "Motion Sensor" ∧
    DeviceType.String 112 = "Gateway" ∧
    DeviceType.String 113 = "STECCO/CUBO" ∧
    DeviceType.String 118 = "Button Plus 2nd generation" ∧
    DeviceType.String 120 = "Switch Zero" := by
  have hs : p ++ [c, s] = (p ++ [c]) ++ [s] := by simp
  have h6 : (p ++ [c]).getD 6 0 = c := by
    rw [List.getD_eq_getElem?_getD, List.getElem?_append_right (by omega)]
    simp [hp]
  rw [hs, parseDevicePayload_snoc (p ++ [c]) s addr (by simp [hp])]
  refine ⟨rfl, h6, fun hc => ?_, by decide, by decide, by decide, by decide, by decide,
    by decide, by decide, by decide, by decide, by decide, by decide⟩
  have hne : ∀ d : DeviceType,
      d.val ∈ [102, 103, 104, 105, 106, 107, 110, 112, 113, 118, 120] → c ≠ d :=
    fun d hd e => hc (e ▸ hd)
  simp [DeviceType.String, hne DeviceTypeBulb (by decide),
    hne DeviceTypeButtonPlus1stGeneration (by decide), hne DeviceTypeButtonSmall (by decide),
    hne DeviceTypeLEDStrip (by decide), hne DeviceTypeSwitchCH (by decide),
    hne DeviceTypeSwitchEU (by decide), hne DeviceTypeMotionSensor (by decide),
    hne DeviceTypeGateway (by decide), hne DeviceTypeSTECCO (by decide),
    hne DeviceTypeButtonPlus2ndGeneration (by decide), hne DeviceTypeSwitchZero (by decide)]

/-- Witness of C9: the undocumented code 200 decodes and renders as `200`. -/
theorem DeviceType_String_of_code_witness :
    (parseDevicePayload ([0x01, 0x23, 0x45, 0x67, 0x89, 0xab] ++ [200, 0x01]) none).2 = none ∧
    (parseDevicePayload ([0x01, 0x23, 0x45, 0x67, 0x89, 0xab] ++ [200, 0x01]) none).1.Type_ = 200 ∧
    DeviceType.String 200 = "200" := by
  have h := DeviceType_String_of_code 200 [0x01, 0x23, 0x45, 0x67, 0x89, 0xab] 0x01 none
    (by decide)
  exact ⟨h.1, h.2.1, (h.2.2.1 (by decide)).trans (by decide)⟩

/-- C10, as stated, fails: the device answers the report call with status 503
and a body stream that breaks while it is read; the error `Report` returns
wraps the read error, not `ErrStatus`, and its text carries neither the
status code nor the body. -/
theorem Switch_Report_body_read_failure :
    (Switch.Report sampleStd (sampleSwitch brokenResponse) reportTarget).map Prod.snd =
      some (some (GoError.wrapf "error reading body: unexpected EOF"
        (GoError.new "unexpected EOF"))) ∧
    (GoError.wrapf "error reading body: unexpected EOF" (GoError.new "unexpected EOF")).Is
      ErrStatus = false := by
  decide

/-- C10, amended: on a switch with an HTTP client, whenever the request of a
call is built and the device answers it with a response `resp` whose status is
outside [200,300), `Report`, `Toggle`, `Relay`, `Temperature`, `PowerCycle`
and `Timer` each return a non-nil error `e`, `Report` and `Temperature`
together with the zero value.  By `StatusFailure`, when the body of `resp` is
nil or is read to its end, `e` wraps `ErrStatus` and its text contains the
decimal status code and, with a body, the trimmed body; when reading the body
fails, `e` is `error reading body: ...` wrapping the read error, and wraps
`ErrStatus` only if the read error does. -/
theorem Switch_non2xx_error (std : Std) (s : Switch) (h : HTTPClient)
    (tr : JSONTarget SwitchReport) (tt : JSONTarget SwitchTemperature)
    (state : RelaySwitchState) (mode : SwitchTimerMode) (wait time : Int)
    (hc : s.client.httpClient = some h) :
    (∀ req resp,
      s.client.newRequest std s.baseURL MethodGet "report" none none = some (Except.ok req) →
      h.Do req = Except.ok resp → (resp.StatusCode < 200 ∨ 300 ≤ resp.StatusCode) →
      ∃ e, s.Report std tr = some ({ Power := 0, Relay := false }, some e) ∧
        StatusFailure std resp e) ∧
    (∀ req resp,
      s.client.newRequest std s.baseURL MethodGet "toggle" none none = some (Except.ok req) →
      h.Do req = Except.ok resp → (resp.StatusCode < 200 ∨ 300 ≤ resp.StatusCode) →
      ∃ e, s.Toggle std = some (some e) ∧ StatusFailure std resp e) ∧
    (∀ req resp,
      s.client.newRequest std s.baseURL MethodGet "relay" (some [("state", [state])]) none =
        some (Except.ok req) →
      h.Do req = Except.ok resp → (resp.StatusCode < 200 ∨ 300 ≤ resp.StatusCode) →
      ∃ e, s.Relay std state = some (some e) ∧ StatusFailure std resp e) ∧
    (∀ req resp,
      s.client.newRequest std s.baseURL MethodGet "api/v1/temperature" none none =
        some (Except.ok req) →
      h.Do req = Except.ok resp → (resp.StatusCode < 200 ∨ 300 ≤ resp.StatusCode) →
      ∃ e, s.Temperature std tt =
          some ({ Measured := 0, Compensation := 0, Compensated := 0 }, some e) ∧
        StatusFailure std resp e) ∧
    (∀ req resp,
      s.client.newRequest std s.baseURL MethodGet "power_cycle"
        (some [("time", [toString (std.Seconds wait)])]) none = some (Except.ok req) →
      h.Do req = Except.ok resp → (resp.StatusCode < 200 ∨ 300 ≤ resp.StatusCode) →
      ∃ e, s.PowerCycle std wait = some (some e) ∧ StatusFailure std resp e) ∧
    (∀ req resp,
      s.client.newRequest std s.baseURL MethodPost "timer"
        (some [("time", [toString (std.Seconds time)]), ("mode", [mode])]) none =
        some (Except.ok req) →
      h.Do req = Except.ok resp → (resp.StatusCode < 200 ∨ 300 ≤ resp.StatusCode) →
      ∃ e, s.Timer std mode time = some (some e) ∧ StatusFailure std resp e) := by
  refine ⟨?_, ?_, ?_, ?_, ?_, ?_⟩
  · intro req resp hreq hd hn
    obtain ⟨r, e, hdo, hf⟩ := do_status_failure std s.client req h resp hc hd hn
    refine ⟨e, ?_, hf⟩
    unfold Switch.Report
    rw [hreq]
    dsimp only
    rw [doJSON_of_do_error std s.client req tr { Power := 0, Relay := false } r e hdo]
  · intro req resp hreq hd hn
    obtain ⟨r, e, hdo, hf⟩ := do_status_failure std s.client req h resp hc hd hn
    refine ⟨e, ?_, hf⟩
    unfold Switch.Toggle
    rw [hreq]
    dsimp only
    rw [hdo]
  · intro req resp hreq hd hn
    obtain ⟨r, e, hdo, hf⟩ := do_status_failure std s.client req h resp hc hd hn
    refine ⟨e, ?_, hf⟩
    unfold Switch.Relay
    rw [hreq]
    dsimp only
    rw [hdo]
  · intro req resp hreq hd hn
    obtain ⟨r, e, hdo, hf⟩ := do_status_failure std s.client req h resp hc hd hn
    refine ⟨e, ?_, hf⟩
    unfold Switch.Temperature
    rw [hreq]
    dsimp only
    rw [doJSON_of_do_error std s.client req tt
      { Measured := 0, Compensation := 0, Compensated := 0 } r e hdo]
  · intro req resp hreq hd hn
    obtain ⟨r, e, hdo, hf⟩ := do_status_failure std s.client req h resp hc hd hn
    refine ⟨e, ?_, hf⟩
    unfold Switch.PowerCycle
    rw [hreq]
    dsimp only
    rw [hdo]
  · intro req resp hreq hd hn
    obtain ⟨r, e, hdo, hf⟩ := do_status_failure std s.client req h resp hc hd hn
    refine ⟨e, ?_, hf⟩
    unfold Switch.Timer
    rw [hreq]
    dsimp only
    rw [hdo]

/-- Witness of C10: the report call on a switch whose device answers with
status 500 and the body ` boom`, newline. -/
theorem Switch_non2xx_error_witness :
    ∃ e, Switch.Report sampleStd (sampleSwitch errorResponse) reportTarget =
        some ({ Power := 0, Relay := false }, some e) ∧
      e.Is ErrStatus = true ∧
      Contains e.Error (toString (500 : Int)) ∧
      Contains e.Error "boom" := by
  obtain ⟨e, he, hf⟩ := (Switch_non2xx_error sampleStd (sampleSwitch errorResponse)
    ⟨fun _ => Except.ok errorResponse⟩ reportTarget temperatureTarget RelaySwitchStateOn
    SwitchTimerModeOn 5000000000 5000000000 rfl).1
    { Method := "GET", URL := ⟨"http", "192.0.2.7", "/report", ""⟩,
      Header := [("Token", ["abcd"]), ("User-Agent", ["test/0.1"]),
        ("Accept", ["application/json"])],
      Body := none }
    errorResponse rfl rfl (by decide)
  obtain ⟨h1, h2, h3⟩ := hf.2.1 { data := " boom\n", readErr := none } rfl rfl
  exact ⟨e, he, h1, h2, h3⟩

/-! ## Lemmas on request building, options and defaults -/

/-- A text without a character to escape is its own escaped form. -/
theorem QueryEscape_of_unreserved (s : String) (h : ∀ c ∈ s.data, shouldEscape c = false) :
    QueryEscape s = s := by
  have hl : ∀ l : List Char, (∀ c ∈ l, shouldEscape c = false) → l.flatMap escapeChar = l := by
    intro l
    induction l with
    | nil => intro _; rfl
    | cons c cs ih =>
      intro hc
      have h1 : escapeChar c = [c] := by simp [escapeChar, hc c (by simp)]
      rw [List.flatMap_cons, h1, ih (fun x hx => hc x (by simp [hx]))]
      rfl
  unfold QueryEscape
  rw [hl s.data h]

/-- The encoded form of the single parameter `state`. -/
theorem Encode_state (state : String) :
    Values.Encode [("state", [state])] = "state=" ++ QueryEscape state := by
  have hk : QueryEscape "state" = "state" := by decide
  simp [Values.Encode, insertByKey, String.intercalate, String.intercalate.go, hk,
    String.append_assoc]
  rfl

/-- What a request built by `newRequest` without body is made of. -/
theorem newRequest_no_body (std : Std) (c : Client) (b : URL) (method path : String)
    (params : Values) (req : Request)
    (h : c.newRequest std (some b) method path (some params) none = some (Except.ok req)) :
    std.NewRequestURL method
      { Scheme := (std.ResolveReference b ⟨"", "", path, ""⟩).Scheme
        Host := (std.ResolveReference b ⟨"", "", path, ""⟩).Host
        Path := (std.ResolveReference b ⟨"", "", path, ""⟩).Path
        RawQuery := std.Encode params } = Except.ok req.URL ∧
    req.Method = (if method = "" then MethodGet else method) ∧
    req.Body = none ∧
    req.Header.lookup "Content-Type" = none := by
  unfold Client.newRequest at h
  simp only at h
  generalize hu : std.NewRequestURL method _ = res at h
  cases res with
  | error e => simp at h
  | ok url =>
    simp only [Option.some.injEq, Except.ok.injEq] at h
    subst h
    by_cases hk : c.apiKey = "" <;>
      simp [hk, hu, Header.lookup, Header.Set, List.lookup, List.filter]

/-- The checked decoder never panics and returns what `parseDevicePayload`
returns. -/
theorem parseDevicePayloadChecked_eq (buf : List Byte) (addr : Option Addr) :
    parseDevicePayloadChecked buf addr = some (parseDevicePayload buf addr) := by
  by_cases h : buf.length < 8
  · simp [parseDevicePayloadChecked, parseDevicePayload, h]
  · have h6 : 6 < buf.length := by omega
    have h7 : 7 < buf.length := by omega
    have h6' : 6 ≤ buf.length := by omega
    simp [parseDevicePayloadChecked, parseDevicePayload, h, h6', List.getElem?_eq_getElem, h6, h7]

/-! ## Claims on request building, options and defaults -/

/-- C11, as stated, fails: for the relay state `a b` the query string of the
request is `state=a+b`, the state escaped by `url.Values.Encode`, and not
`state=` followed by the state. -/
theorem Switch_Relay_escapes_state :
    Client.newRequest goStd (sampleSwitch bodilessResponse).client
        (sampleSwitch bodilessResponse).baseURL MethodGet "relay" (some [("state", ["a b"])])
        none =
      some (Except.ok
        { Method := "GET", URL := ⟨"http", "192.0.2.7", "/relay", "state=a+b"⟩,
          Header := [("Token", ["abcd"]), ("User-Agent", ["test/0.1"]),
            ("Accept", ["application/json"])],
          Body := none }) ∧
    "state=a+b" ≠ "state=" ++ "a b" :=
  ⟨rfl, by decide⟩

/-- C11, amended: let the library resolve a path-only reference without
touching scheme and host, give the new request the URL it was asked for, and
encode parameters as `url.Values.Encode` does.  Then every request `req` that
`Relay` builds for state `state` is what `Relay` hands to `do`, has method
`GET`, the path of the base URL resolved against `relay`, the query string
`state=` followed by the escaped state, which is `state=1` for On, `state=0`
for Off and `state=` followed by the state itself when the state has no
character to escape, the scheme and host of the base URL, no body and no
Content-Type header. -/
theorem Switch_Relay_request (std : Std) (s : Switch) (state : RelaySwitchState) (b : URL)
    (req : Request)
    (hRes : ∀ base ref : URL, ref.Scheme = "" → ref.Host = "" →
      (std.ResolveReference base ref).Scheme = base.Scheme ∧
      (std.ResolveReference base ref).Host = base.Host)
    (hNew : ∀ (method : String) (u url : URL),
      std.NewRequestURL method u = Except.ok url → url = u)
    (hEnc : ∀ v : Values, std.Encode v = Values.Encode v)
    (hb : s.baseURL = some b)
    (hreq : s.client.newRequest std s.baseURL MethodGet "relay" (some [("state", [state])])
      none = some (Except.ok req)) :
    s.Relay std state = (s.client.do std req).map Prod.snd ∧
    req.Method = "GET" ∧
    req.URL.Path = (std.ResolveReference b ⟨"", "", "relay", ""⟩).Path ∧
    req.URL.RawQuery = "state=" ++ QueryEscape state ∧
    (state = RelaySwitchStateOn → req.URL.RawQuery = "state=1") ∧
    (state = RelaySwitchStateOff → req.URL.RawQuery = "state=0") ∧
    ((∀ c ∈ state.data, shouldEscape c = false) → req.URL.RawQuery = "state=" ++ state) ∧
    req.URL.Scheme = b.Scheme ∧
    req.URL.Host = b.Host ∧
    req.Body = none ∧
    req.Header.lookup "Content-Type" = none := by
  have hrel : s.Relay std state = (s.client.do std req).map Prod.snd := by
    unfold Switch.Relay
    rw [hreq]
    dsimp only
    cases s.client.do std req with
    | none => rfl
    | some r => rfl
  rw [hb] at hreq
  obtain ⟨hurl, hm, hbody, hhead⟩ := newRequest_no_body std s.client b MethodGet "relay"
    [("state", [state])] req hreq
  have hu := hNew _ _ _ hurl
  have hs := hRes b ⟨"", "", "relay", ""⟩ rfl rfl
  have hq : req.URL.RawQuery = "state=" ++ QueryEscape state := by
    rw [hu]
    show std.Encode [("state", [state])] = _
    rw [hEnc, Encode_state]
  refine ⟨hrel, ?_, ?_, hq, ?_, ?_, ?_, ?_, ?_, hbody, hhead⟩
  · rw [hm]; rfl
  · rw [hu]
  · intro h1; rw [hq, h1]; decide
  · intro h0; rw [hq, h0]; decide
  · intro hc; rw [hq, QueryEscape_of_unreserved state hc]
  · rw [hu]; exact hs.1
  · rw [hu]; exact hs.2

/-- Witness of C11: `Relay` with state On on the switch at `http://192.0.2.7`. -/
theorem Switch_Relay_request_witness :
    ∃ req, Client.newRequest goStd (sampleSwitch bodilessResponse).client
        (sampleSwitch bodilessResponse).baseURL MethodGet "relay"
        (some [("state", [RelaySwitchStateOn])]) none = some (Except.ok req) ∧
      req.Method = "GET" ∧
      req.URL = ⟨"http", "192.0.2.7", "/relay", "state=1"⟩ ∧
      req.Body = none := by
  have hNew : ∀ (method : String) (u url : URL),
      goStd.NewRequestURL method u = Except.ok url → url = u := by
    intro method u url h
    simp only [goStd, sampleStd] at h
    split at h
    · cases h; rfl
    · cases h
  have h := Switch_Relay_request goStd (sampleSwitch bodilessResponse) RelaySwitchStateOn
    ⟨"http", "192.0.2.7", "", ""⟩
    { Method := "GET", URL := ⟨"http", "192.0.2.7", "/relay", "state=1"⟩,
      Header := [("Token", ["abcd"]), ("User-Agent", ["test/0.1"]),
        ("Accept", ["application/json"])],
      Body := none }
    (fun _ _ _ _ => ⟨rfl, rfl⟩) hNew (fun _ => rfl) rfl rfl
  exact ⟨_, rfl, h.2.1, rfl, h.2.2.2.2.2.2.2.2.2.1⟩

/-- C12: `NewClient` applies its options in the order given, the last option
on a field deciding it: after any options, a final `WithAPIKey`,
`WithUserAgent` or `WithHTTPClient` fixes its field and leaves the other two
as the options before left them, and an API key set is kept by a later
`WithUserAgent`; each option applied to a client changes its own field only;
and without options the API key and the user agent are empty and the HTTP
client is the default one, not nil. -/
theorem NewClient_options (d : HTTPClient) (opts : List ClientOption) (o : ClientOption)
    (k ua : String) (h : Option HTTPClient) (c : Client) :
    NewClient d (opts ++ [o]) = o (NewClient d opts) ∧
    (NewClient d (opts ++ [WithAPIKey k])).apiKey = k ∧
    (NewClient d (opts ++ [WithUserAgent ua])).userAgent = ua ∧
    (NewClient d (opts ++ [WithHTTPClient h])).httpClient = h ∧
    (NewClient d (opts ++ [WithAPIKey k, WithUserAgent ua])).apiKey = k ∧
    (NewClient d (opts ++ [WithAPIKey k, WithUserAgent ua])).userAgent = ua ∧
    ((WithAPIKey k c).apiKey = k ∧ (WithAPIKey k c).userAgent = c.userAgent ∧
      (WithAPIKey k c).httpClient = c.httpClient) ∧
    ((WithUserAgent ua c).userAgent = ua ∧ (WithUserAgent ua c).apiKey = c.apiKey ∧
      (WithUserAgent ua c).httpClient = c.httpClient) ∧
    ((WithHTTPClient h c).httpClient = h ∧ (WithHTTPClient h c).apiKey = c.apiKey ∧
      (WithHTTPClient h c).userAgent = c.userAgent) ∧
    (NewClient d []).apiKey = "" ∧
    (NewClient d []).userAgent = "" ∧
    (NewClient d []).httpClient = some d ∧
    (NewClient d []).httpClient ≠ none := by
  have happ : ∀ (l : List ClientOption) (x : ClientOption),
      NewClient d (l ++ [x]) = x (NewClient d l) := by
    intro l x
    simp [NewClient, List.foldl_append]
  have happ2 : ∀ x y : ClientOption,
      NewClient d (opts ++ [x, y]) = y (x (NewClient d opts)) := by
    intro x y
    simp [NewClient, List.foldl_append]
  refine ⟨happ opts o, ?_, ?_, ?_, ?_, ?_, ⟨rfl, rfl, rfl⟩, ⟨rfl, rfl, rfl⟩, ⟨rfl, rfl, rfl⟩,
    rfl, rfl, rfl, ?_⟩
  · rw [happ]; rfl
  · rw [happ]; rfl
  · rw [happ]; rfl
  · rw [happ2]; rfl
  · rw [happ2]; rfl
  · simp [NewClient]

/-- C13: `defaultString s def` is `s` when `s` is not empty and `def` when it
is; and `Device` listens on the address `:7979` when `Address` is empty and
on `Address` otherwise, on the network `udp` when `Network` is empty and on
`Network` otherwise: its result is settled by what `ListenPacket` returns for
that network and address, and an error of that call comes back wrapped, with
that address and network in its text. -/
theorem defaultString_and_listen (s def_ : String) (d : Discover) :
    (s ≠ "" → defaultString s def_ = s) ∧
    (s = "" → defaultString s def_ = def_) ∧
    (∀ lc : ListenConfig,
      lc.ListenPacket (if d.Network = "" then "udp" else d.Network)
          (if d.Address = "" then ":7979" else d.Address) =
        d.ListenConfig.ListenPacket (if d.Network = "" then "udp" else d.Network)
          (if d.Address = "" then ":7979" else d.Address) →
      Discover.Device { d with ListenConfig := lc } = Discover.Device d) ∧
    (∀ err : GoError,
      d.ListenConfig.ListenPacket (if d.Network = "" then "udp" else d.Network)
          (if d.Address = "" then ":7979" else d.Address) = Except.error err →
      Discover.Device d = (Device.zero, some (GoError.wrapf
        ("listen packet error for address " ++ (if d.Address = "" then ":7979" else d.Address)
          ++ ", network " ++ (if d.Network = "" then "udp" else d.Network) ++ ": " ++ err.Error)
        err))) := by
  have hds : ∀ x y : String, defaultString x y = if x = "" then y else x := by
    intro x y
    unfold defaultString
    by_cases hx : x = "" <;> simp [hx]
  refine ⟨fun h => by simp [hds, h], fun h => by simp [hds, h], fun lc hlc => ?_, fun err he => ?_⟩
  · unfold Discover.Device
    simp only [hds]
    rw [hlc]
  · unfold Discover.Device
    simp only [hds]
    rw [he]

/-- C14: on a payload shorter than 8 bytes `parseDevicePayload` indexes
nothing out of range (the decoder with run-time checks does not panic and
returns the same), returns the zero-valued `Device`, that is a nil Address, a
nil MAC, Type 0 and all flags false, and returns an error whose text is
`payload too small: ` followed by the length of the payload in decimal. -/
theorem parseDevicePayload_short (buf : List Byte) (addr : Option Addr)
    (h : buf.length < 8) :
    parseDevicePayloadChecked buf addr = some (parseDevicePayload buf addr) ∧
    (parseDevicePayload buf addr).1 = Device.zero ∧
    (parseDevicePayload buf addr).1.Address = none ∧
    (parseDevicePayload buf addr).1.MAC = [] ∧
    (parseDevicePayload buf addr).1.Type_ = 0 ∧
    (parseDevicePayload buf addr).1.Cloud = false ∧
    (parseDevicePayload buf addr).1.Registered = false ∧
    (parseDevicePayload buf addr).1.MeshChild = false ∧
    ∃ e, (parseDevicePayload buf addr).2 = some e ∧
      e.Error = "payload too small: " ++ Nat.repr buf.length ∧
      Contains e.Error (Nat.repr buf.length) := by
  refine ⟨parseDevicePayloadChecked_eq buf addr, ?_⟩
  rw [parseDevicePayload_of_lt buf addr h]
  exact ⟨rfl, rfl, rfl, rfl, rfl, rfl, rfl, _, rfl, rfl, "payload too small: ", "", by
    simp [GoError.Error]⟩

/-- Witness of C14: the 7-byte payload of the test `invalid packet length` of
the source, and the empty payload. -/
theorem parseDevicePayload_short_witness :
    parseDevicePayload [0x01, 0x23, 0x45, 0x67, 0x89, 0xab, 0x01] none =
      (Device.zero, some (GoError.errorf "payload too small: 7")) ∧
    parseDevicePayloadChecked [] (some "192.0.2.7:7979") =
      some (Device.zero, some (GoError.errorf "payload too small: 0")) := by
  have h0 := parseDevicePayload_short [] (some "192.0.2.7:7979") (by decide)
  exact ⟨by decide, h0.1.trans (by decide)⟩

end Mystrom
